import Mathlib

/-!
Verification development for the content-artifact lifecycle manager of the
d-brain repository (services/processor.py and the plan-generation callback in
bot/handlers/callbacks.py).

The Python code is shallowly embedded: the filesystem-backed vault is a record
of association lists (filename to file text), the external generation
collaborator (a subprocess call) is an explicit outcome value, and every
processor method becomes a pure Lean function over those.  Prompt assembly is
not modelled because its only consumer is the external collaborator, whose
outcome is a parameter.  Dates are modelled as proleptic-Gregorian ordinals
(days since 0001-01-01 = 1), with the ISO-calendar computation translated from
CPython datetime internals, which the source calls via date.isocalendar().
-/

namespace DBrain

/-! ## Python string primitives -/

/-- Python whitespace for str.strip and the regex class backslash-s
(ASCII part: space, tab, newline, carriage return, vertical tab, form feed). -/
def pyIsSpace (c : Char) : Bool :=
  c = ' ' || c = '\t' || c = '\n' || c = '\r' || c = '\x0b' || c = '\x0c'

def countWhile (p : Char → Bool) : List Char → Nat
  | [] => 0
  | c :: rest => if p c then countWhile p rest + 1 else 0

/-- Python str.strip on a character list. -/
def pyStripCs (cs : List Char) : List Char :=
  ((cs.dropWhile pyIsSpace).reverse.dropWhile pyIsSpace).reverse

/-- Python str.strip. -/
def strStrip (s : String) : String :=
  (pyStripCs s.data).asString

/-- Python str.lower, restricted to the ASCII case used by the source
(the only comparison is against the literal "none"). -/
def pyLower (s : String) : String :=
  (s.data.map Char.toLower).asString

/-- Python truthiness-based `a or b` on strings: b when a is empty. -/
def pyOr (a b : String) : String :=
  if a = "" then b else a

/-- First index at which `pat` occurs as a sublist. -/
def findSubIdx (pat : List Char) : List Char → Option Nat
  | [] => if pat.isPrefixOf ([] : List Char) then some 0 else none
  | c :: rest =>
    if pat.isPrefixOf (c :: rest) then some 0
    else (findSubIdx pat rest).map (· + 1)

/-- Python str.find(pat, start): first occurrence index at or after start. -/
def findSubFrom (pat cs : List Char) (start : Nat) : Option Nat :=
  (findSubIdx pat (cs.drop start)).map (· + start)

/-- Python `sub in s`. -/
def pyContains (s sub : String) : Bool :=
  (findSubIdx sub.data s.data).isSome

/-- Python str.replace (all non-overlapping occurrences, left to right);
`old` is nonempty at every call site.  The fuel argument (at least the input
length at every call) only forces structural recursion. -/
def pyReplaceCsF (old new : List Char) : Nat → List Char → List Char
  | 0, _ => []
  | _, [] => []
  | fuel + 1, c :: rest =>
    if old.isPrefixOf (c :: rest) then
      new ++ pyReplaceCsF old new fuel (rest.drop (old.length - 1))
    else
      c :: pyReplaceCsF old new fuel rest

def pyReplaceCs (old new cs : List Char) : List Char :=
  pyReplaceCsF old new cs.length cs

def pyReplace (s old new : String) : String :=
  (pyReplaceCs old.data new.data s.data).asString

/-- Python str.endswith. -/
def strEndsWith (s suffix : String) : Bool :=
  suffix.data.isSuffixOf s.data

/-- Numeric value of a digit run. -/
def natOfDigits (cs : List Char) : Nat :=
  cs.foldl (fun a c => a * 10 + (c.toNat - 48)) 0

/-- Python re.findall with the digit-run pattern: maximal runs of digits. -/
def digitRunsF : Nat → List Char → List String
  | 0, _ => []
  | _, [] => []
  | fuel + 1, c :: rest =>
    if c.isDigit then
      let n := countWhile Char.isDigit rest
      ((c :: rest).take (n + 1)).asString :: digitRunsF fuel (rest.drop n)
    else
      digitRunsF fuel rest

def digitRuns (cs : List Char) : List String :=
  digitRunsF cs.length cs

/-- pathlib Path.stem: name without its final extension (a leading dot or a
trailing dot does not count as an extension separator). -/
def stemOf (name : String) : String :=
  let cs := name.data
  match (findSubIdx ['.'] cs.reverse) with
  | none => name
  | some rIdx =>
    let i := cs.length - 1 - rIdx
    if 0 < i ∧ i < cs.length - 1 then (cs.take i).asString else name

def strTake (s : String) (n : Nat) : String :=
  (s.data.take n).asString

/-! ## Dates: proleptic Gregorian ordinals and the ISO calendar
(translated from CPython datetime internals used by the source). -/

def isLeapB (y : Int) : Bool :=
  decide (y.emod 4 = 0) && (decide (y.emod 100 ≠ 0) || decide (y.emod 400 = 0))

def daysInMonthTab (m : Int) : Int :=
  if m = 1 then 31 else if m = 2 then 28 else if m = 3 then 31
  else if m = 4 then 30 else if m = 5 then 31 else if m = 6 then 30
  else if m = 7 then 31 else if m = 8 then 31 else if m = 9 then 30
  else if m = 10 then 31 else if m = 11 then 30 else if m = 12 then 31 else 0

def daysBeforeMonthTab (m : Int) : Int :=
  if m = 1 then 0 else if m = 2 then 31 else if m = 3 then 59
  else if m = 4 then 90 else if m = 5 then 120 else if m = 6 then 151
  else if m = 7 then 181 else if m = 8 then 212 else if m = 9 then 243
  else if m = 10 then 273 else if m = 11 then 304 else if m = 12 then 334 else 0

def daysBeforeYear (y : Int) : Int :=
  365 * (y - 1) + (y - 1).fdiv 4 - (y - 1).fdiv 100 + (y - 1).fdiv 400

/-- date(y, m, d).toordinal(). -/
def ymd2ord (y m d : Int) : Int :=
  daysBeforeYear y + daysBeforeMonthTab m
    + (if 2 < m ∧ isLeapB y then 1 else 0) + d

/-- date.fromordinal components (CPython _ord2ymd). -/
def ord2ymd (o : Int) : Int × Int × Int :=
  let n0 := o - 1
  let n400 := n0.fdiv 146097
  let n1r := n0.emod 146097
  let n100 := n1r.fdiv 36524
  let n2r := n1r.emod 36524
  let n4 := n2r.fdiv 1461
  let n3r := n2r.emod 1461
  let n1 := n3r.fdiv 365
  let n := n3r.emod 365
  let year := n400 * 400 + 1 + n100 * 100 + n4 * 4 + n1
  if n1 = 4 ∨ n100 = 4 then (year - 1, 12, 31)
  else
    let leapyear : Bool := decide (n1 = 3) && (decide (n4 ≠ 24) || decide (n100 = 3))
    let month := (n + 50).fdiv 32
    let preceding := daysBeforeMonthTab month + (if 2 < month ∧ leapyear then 1 else 0)
    if n < preceding then
      let month2 := month - 1
      let preceding2 := preceding - (daysInMonthTab month2 + (if month2 = 2 ∧ leapyear then 1 else 0))
      (year, month2, n - preceding2 + 1)
    else
      (year, month, n - preceding + 1)

def pad2 (n : Int) : String :=
  if 0 ≤ n ∧ n < 10 then "0" ++ toString n else toString n

def pad4 (n : Int) : String :=
  if 0 ≤ n ∧ n < 10 then "000" ++ toString n
  else if 0 ≤ n ∧ n < 100 then "00" ++ toString n
  else if 0 ≤ n ∧ n < 1000 then "0" ++ toString n
  else toString n

/-- date.isoformat() of an ordinal. -/
def isoformatOrd (o : Int) : String :=
  let y := (ord2ymd o).1
  let m := (ord2ymd o).2.1
  let d := (ord2ymd o).2.2
  pad4 y ++ "-" ++ pad2 m ++ "-" ++ pad2 d

/-- CPython _isoweek1monday. -/
def isoweek1monday (year : Int) : Int :=
  let firstday := ymd2ord year 1 1
  let firstweekday := (firstday + 6).emod 7
  let week1monday := firstday - firstweekday
  if 3 < firstweekday then week1monday + 7 else week1monday

/-- date.isocalendar() restricted to (ISO year, ISO week). -/
def isocalendarOrd (o : Int) : Int × Int :=
  let year := (ord2ymd o).1
  let week := (o - isoweek1monday year).fdiv 7
  if week < 0 then
    let year2 := year - 1
    (year2, (o - isoweek1monday year2).fdiv 7 + 1)
  else if 52 ≤ week ∧ isoweek1monday (year + 1) ≤ o then
    (year + 1, 1)
  else
    (year, week + 1)

/-- The f-string year-Wweek id used throughout the source. -/
def weekIdOf (o : Int) : String :=
  let yw := isocalendarOrd o
  toString yw.1 ++ "-W" ++ pad2 yw.2

/-- date.fromisoformat(s) for the dashed form, as applied to name[:10];
none models ValueError. -/
def parseIsoDate10 (s : String) : Option Int :=
  match s.data with
  | [y1, y2, y3, y4, '-', m1, m2, '-', d1, d2] =>
    if [y1, y2, y3, y4, m1, m2, d1, d2].all Char.isDigit then
      let y : Int := (natOfDigits [y1, y2, y3, y4] : Nat)
      let m : Int := (natOfDigits [m1, m2] : Nat)
      let d : Int := (natOfDigits [d1, d2] : Nat)
      if 1 ≤ y ∧ y ≤ 9999 ∧ 1 ≤ m ∧ m ≤ 12 ∧ 1 ≤ d ∧
          d ≤ daysInMonthTab m + (if m = 2 ∧ isLeapB y then 1 else 0) then
        some (ymd2ord y m d)
      else none
    else none
  | _ => none

/-! ## The seed-header pattern

The source scans seed-file bodies with re.finditer over the MULTILINE pattern
(up to two asterisks) "Seed" (whitespace) "#" (digits, group 1)
(one or more of colon/whitespace) (lazy one-or-more non-newline, group 2)
(up to two asterisks) (whitespace) end-of-line.
The matcher below replicates the backtracking order of the Python engine for
this fixed pattern: greedy pieces try longest first, the lazy group shortest
first, and a match is reported with its total consumed length, the numeric
group and the raw title group. -/

/-- True at an end-of-line position: end of input or a newline next
(MULTILINE dollar anchor). -/
def atEol : List Char → Bool
  | [] => true
  | c :: _ => c = '\n'

/-- Greedy trailing-whitespace consumption before the dollar anchor: the
largest w not exceeding the whitespace run such that the anchor holds after
dropping w. -/
def wsTry (cs : List Char) : Nat → Option Nat
  | 0 => if atEol cs then some 0 else none
  | w + 1 => if atEol (cs.drop (w + 1)) then some (w + 1) else wsTry cs w

def wsEnd (cs : List Char) : Option Nat :=
  wsTry cs (countWhile pyIsSpace cs)

/-- The closing asterisks, greedy (two, then one, then none), each followed by
trailing whitespace and the anchor. -/
def starsWsEnd (cs : List Char) : Option Nat :=
  match (if ['*', '*'].isPrefixOf cs then (wsEnd (cs.drop 2)).map (· + 2) else none) with
  | some k => some k
  | none =>
    match (if ['*'].isPrefixOf cs then (wsEnd (cs.drop 1)).map (· + 1) else none) with
    | some k => some k
    | none => wsEnd cs

/-- The lazy title group: grow one non-newline character at a time, trying the
pattern tail after each growth step.  Returns (consumed length including the
tail, title characters). -/
def lazyTitle (acc : List Char) : List Char → Option (Nat × List Char)
  | [] => none
  | c :: rest =>
    if c = '\n' then none
    else
      let acc2 := acc ++ [c]
      match starsWsEnd rest with
      | some w => some (acc2.length + w, acc2)
      | none => lazyTitle acc2 rest

/-- The separator run after the digits: greedy over the colon/whitespace class,
giving back characters when the tail fails. `j` counts down from the maximal
run length; zero means failure (the class needs at least one character). -/
def sepTry (cs : List Char) : Nat → Option (Nat × List Char)
  | 0 => none
  | j + 1 =>
    match lazyTitle [] (cs.drop (j + 1)) with
    | some (t, title) => some (j + 1 + t, title)
    | none => sepTry cs j

def isSepChar (c : Char) : Bool :=
  c = ':' || pyIsSpace c

/-- Attempt the pattern right after the leading asterisks (k of them already
consumed).  Returns (total consumed, seed number, raw title group). -/
def matchAfterStars (k : Nat) (cs : List Char) : Option (Nat × Nat × List Char) :=
  if ['S', 'e', 'e', 'd'].isPrefixOf cs then
    let cs1 := cs.drop 4
    let w := countWhile pyIsSpace cs1
    let cs2 := cs1.drop w
    match cs2 with
    | '#' :: cs3 =>
      let dcount := countWhile Char.isDigit cs3
      if 1 ≤ dcount then
        let num := natOfDigits (cs3.take dcount)
        let cs4 := cs3.drop dcount
        match sepTry cs4 (countWhile isSepChar cs4) with
        | some (tailLen, title) => some (k + 4 + w + 1 + dcount + tailLen, num, title)
        | none => none
      else none
    | _ => none
  else none

/-- Attempt a match at the head of `cs`: the leading asterisks are greedy
(two, then one, then none). -/
def matchSeedAt (cs : List Char) : Option (Nat × Nat × List Char) :=
  match (if ['*', '*'].isPrefixOf cs then matchAfterStars 2 (cs.drop 2) else none) with
  | some r => some r
  | none =>
    match (if ['*'].isPrefixOf cs then matchAfterStars 1 (cs.drop 1) else none) with
    | some r => some r
    | none => matchAfterStars 0 cs

/-- re.finditer: scan left to right, non-overlapping, resuming after each
match.  Yields (start position, seed number, raw title group). -/
def scanSeedsF : Nat → List Char → Nat → List (Nat × Nat × List Char)
  | 0, _, _ => []
  | _, [], _ => []
  | fuel + 1, c :: rest, pos =>
    match matchSeedAt (c :: rest) with
    | some (len, num, title) =>
      (pos, num, title) :: scanSeedsF fuel (rest.drop (len - 1)) (pos + len)
    | none => scanSeedsF fuel rest (pos + 1)

def scanSeeds (cs : List Char) (pos : Nat) : List (Nat × Nat × List Char) :=
  scanSeedsF cs.length cs pos

/-- re.search for the frontmatter pattern "week:" (whitespace) (non-whitespace
run, group 1): leftmost position where the whole pattern matches. -/
def searchWeek : List Char → Option String
  | [] => none
  | c :: rest =>
    if ['w', 'e', 'e', 'k', ':'].isPrefixOf (c :: rest) then
      let after := (c :: rest).drop 5
      let ws := countWhile pyIsSpace after
      let tok := countWhile (fun ch => !(pyIsSpace ch)) (after.drop ws)
      if 1 ≤ tok then some (((after.drop ws).take tok).asString)
      else searchWeek rest
    else searchWeek rest

/-- re.match of the anchored filename pattern (four digits, dash, W, two
digits), as applied to the seed-file name. -/
def filenameWeek (name : String) : Option String :=
  match name.data with
  | a :: b :: c :: d :: '-' :: 'W' :: e :: f :: _ =>
    if [a, b, c, d, e, f].all Char.isDigit then
      some ([a, b, c, d, '-', 'W', e, f].asString)
    else none
  | _ => none

/-- The frontmatter strip shared by the seed parser and the plan reader:
if the text starts with three dashes, cut everything through the next three
dashes and strip the remainder; otherwise leave the text as is. -/
def stripFrontmatterCs (cs : List Char) : List Char :=
  if ['-', '-', '-'].isPrefixOf cs then
    match findSubFrom ['-', '-', '-'] cs 3 with
    | some e => pyStripCs (cs.drop (e + 3))
    | none => cs
  else cs

def stripFrontmatterStr (s : String) : String :=
  (stripFrontmatterCs s.data).asString

/-- One extracted seed record ({"week", "num", "title", "full_text"}). -/
structure SeedT where
  week : String
  num : Nat
  title : String
  full_text : String
deriving DecidableEq, Repr

/-- group(2).strip().rstrip("*"). -/
def cleanTitle (cs : List Char) : String :=
  (((pyStripCs cs).reverse.dropWhile (· = '*')).reverse).asString

/-- Turn the scanned headers into seed records: each block runs from its
header start to the next header start (or end of body), stripped. -/
def renderSeeds (week : String) (body : List Char) : List (Nat × Nat × List Char) → List SeedT
  | [] => []
  | h :: rest =>
    let endPos := match rest with
      | [] => body.length
      | h2 :: _ => h2.1
    { week := week
      num := h.2.1
      title := cleanTitle h.2.2
      full_text := (pyStripCs ((body.drop h.1).take (endPos - h.1))).asString }
      :: renderSeeds week body rest

/-- Parse one seed file (name and text) into its seed records, following the
body of the per-file loop in _extract_seed_titles. -/
def parseSeedFile (name content : String) : List SeedT :=
  let week := match searchWeek content.data with
    | some w => w
    | none => match filenameWeek name with
      | some w => w
      | none => ""
  let body := stripFrontmatterCs content.data
  renderSeeds week body (scanSeeds body 0)

/-! ## Listing order: sorted(..., reverse=True) -/

/-- The descending order on directory entries: later entries have names at
most as large (Python list ordering compares the path strings). -/
def nameGe (a b : String × String) : Prop :=
  b.1 ≤ a.1

instance : DecidableRel nameGe := fun a b => String.decidableLE b.1 a.1

instance : IsTotal (String × String) nameGe :=
  ⟨fun a b => le_total b.1 a.1⟩

instance : IsTrans (String × String) nameGe :=
  ⟨fun _ _ _ hab hbc => le_trans hbc hab⟩

/-- sorted(paths, reverse=True) for a directory listing (order on the name). -/
def sortDesc (l : List (String × String)) : List (String × String) :=
  List.insertionSort nameGe l

/-! ## Telegram-HTML to Markdown (the _html_to_markdown rendering used when
artifacts are written).  Each re.sub pattern has the shape open-tag, lazy
non-newline group, close-tag; the replacement wraps the group. -/

/-- Index of the first occurrence of `close` with no newline before it
(the lazy dot group cannot cross a line). -/
def findCloseNoNl (close : List Char) : List Char → Option Nat
  | [] => if close.isPrefixOf ([] : List Char) then some 0 else none
  | c :: rest =>
    if close.isPrefixOf (c :: rest) then some 0
    else if c = '\n' then none
    else (findCloseNoNl close rest).map (· + 1)

/-- re.sub for an open-tag/lazy-group/close-tag pattern with a wrapping
replacement; the open tag is passed with its head explicit. -/
def subPairCsF (o1 : Char) (orest close pre post : List Char) :
    Nat → List Char → List Char
  | 0, _ => []
  | _, [] => []
  | fuel + 1, c :: rest =>
    if (o1 :: orest).isPrefixOf (c :: rest) then
      let afterOpen := rest.drop orest.length
      match findCloseNoNl close afterOpen with
      | some k =>
        pre ++ afterOpen.take k ++ post
          ++ subPairCsF o1 orest close pre post fuel (afterOpen.drop (k + close.length))
      | none => c :: subPairCsF o1 orest close pre post fuel rest
    else c :: subPairCsF o1 orest close pre post fuel rest

def subPairCs (o1 : Char) (orest close pre post cs : List Char) : List Char :=
  subPairCsF o1 orest close pre post cs.length cs

/-- re.sub removing the u tags. -/
def removeUF : Nat → List Char → List Char
  | 0, _ => []
  | _, [] => []
  | fuel + 1, c :: rest =>
    if ['<', '/', 'u', '>'].isPrefixOf (c :: rest) then removeUF fuel (rest.drop 3)
    else if ['<', 'u', '>'].isPrefixOf (c :: rest) then removeUF fuel (rest.drop 2)
    else c :: removeUF fuel rest

def removeU (cs : List Char) : List Char :=
  removeUF cs.length cs

/-- re.sub for the anchor pattern: the literal open through the quote, a
greedy nonempty non-quote group, quote and bracket, a greedy nonempty
non-angle group, and the closing tag; replaced by the Markdown link. -/
def subLinkCsF : Nat → List Char → List Char
  | 0, _ => []
  | _, [] => []
  | fuel + 1, c :: rest =>
    if ['<', 'a', ' ', 'h', 'r', 'e', 'f', '=', '"'].isPrefixOf (c :: rest) then
      let after := rest.drop 8
      let urlLen := countWhile (fun ch => !(ch = '"')) after
      if 1 ≤ urlLen then
        if ['"', '>'].isPrefixOf (after.drop urlLen) then
          let url := after.take urlLen
          let after2 := after.drop (urlLen + 2)
          let textLen := countWhile (fun ch => !(ch = '<')) after2
          if 1 ≤ textLen then
            if ['<', '/', 'a', '>'].isPrefixOf (after2.drop textLen) then
              ['['] ++ after2.take textLen ++ [']', '('] ++ url ++ [')']
                ++ subLinkCsF fuel (after2.drop (textLen + 4))
            else c :: subLinkCsF fuel rest
          else c :: subLinkCsF fuel rest
        else c :: subLinkCsF fuel rest
      else c :: subLinkCsF fuel rest
    else c :: subLinkCsF fuel rest

def subLinkCs (cs : List Char) : List Char :=
  subLinkCsF cs.length cs

/-- _html_to_markdown: the chained substitutions in source order. -/
def html_to_markdown (html : String) : String :=
  let t1 := subPairCs '<' ['b', '>'] ['<', '/', 'b', '>'] ['*', '*'] ['*', '*'] html.data
  let t2 := subPairCs '<' ['i', '>'] ['<', '/', 'i', '>'] ['*'] ['*'] t1
  let t3 := subPairCs '<' ['c', 'o', 'd', 'e', '>'] ['<', '/', 'c', 'o', 'd', 'e', '>'] ['`'] ['`'] t2
  let t4 := subPairCs '<' ['s', '>'] ['<', '/', 's', '>'] ['~', '~'] ['~', '~'] t3
  let t5 := removeU t4
  (subLinkCs t5).asString

/-! ## The vault state and the external collaborator -/

/-- The filesystem-backed state the processor touches, as association lists
from file name to file text per directory (a missing directory is the empty
list), plus the dismissal set (the parsed content of the dismissed record)
and the weekly MOC document. -/
structure Vault where
  dailyFiles : List (String × String)
  meetingFiles : List (String × String)
  thoughtFiles : List (String × String)
  seedFiles : List (String × String)
  planFiles : List (String × String)
  summaryFiles : List (String × String)
  mocWeekly : Option String
  dismissed : Finset String

/-- Outcome of one subprocess.run call on the claude CLI: a completed process
with exit code, stdout and stderr, or one of the exception classes the source
distinguishes (TimeoutExpired, FileNotFoundError with its message, any other
exception with its message). -/
inductive SubprocessOutcome where
  | completed (returncode : Int) (stdout : String) (stderr : String)
  | timeoutExpired
  | fileNotFound (msg : String)
  | raised (msg : String)

/-- The values appearing in the result dictionaries of the processor. -/
inductive PyVal where
  | str (s : String)
  | int (n : Int)
  | seeds (l : List SeedT)
  | annSeeds (l : List (SeedT × Bool))
deriving DecidableEq, Repr

/-- A Python dict literal, insertion-ordered. -/
abbrev PyDict := List (String × PyVal)

/-- Overwrite-on-write file store update (write_text semantics). -/
def storeWrite (files : List (String × String)) (name content : String) :
    List (String × String) :=
  if (files.lookup name).isSome then
    files.map (fun p => if p.1 = name then (name, content) else p)
  else
    files ++ [(name, content)]

/-! ## Summarization and material collection -/

/-- _summarize_meeting.  The cache directory is an optional file listing; the
collaborator outcome is a parameter; cacheWriteFails models the guarded
write_text of the cache entry raising.  Returns the text handed back to the
collector, the updated cache directory, and whether the collaborator was
invoked. -/
def summarize_meeting (name text : String)
    (cache_dir : Option (List (String × String)))
    (collab : SubprocessOutcome) (cacheWriteFails : Bool) :
    String × Option (List (String × String)) × Bool :=
  let hit : Option String :=
    match cache_dir with
    | none => none
    | some files =>
      match files.lookup (name ++ ".summary.md") with
      | some cached => if strStrip cached ≠ "" then some cached else none
      | none => none
  match hit with
  | some cached => ("[SUMMARY]\n" ++ cached, cache_dir, false)
  | none =>
    match collab with
    | .completed rc out _ =>
      if rc = 0 ∧ strStrip out ≠ "" then
        let summary := strStrip out
        let cache2 := match cache_dir with
          | none => none
          | some files =>
            if cacheWriteFails then some files
            else some (storeWrite files (name ++ ".summary.md") summary)
        ("[SUMMARY]\n" ++ summary, cache2, true)
      else (text, cache_dir, true)
    | _ => (text, cache_dir, true)

/-- _collect_raw_material: daily notes for the trailing window, meeting
transcripts (long ones through the summary cache), and thoughts.  `summ`
gives the collaborator outcome per summarized transcript stem.  Returns the
combined material and the updated meetings directory (cache writes). -/
def collect_raw_material (v : Vault) (today : Int) (days : Nat)
    (summ : String → SubprocessOutcome) (cacheWriteFails : Bool) :
    String × List (String × String) :=
  let dailyParts := (List.range days).foldl (fun parts i =>
    let day := today - (i : Int)
    match v.dailyFiles.lookup (isoformatOrd day ++ ".md") with
    | none => parts
    | some content =>
      if strStrip content ≠ "" then
        parts ++ ["=== DAILY " ++ isoformatOrd day ++ " ===\n" ++ content]
      else parts) []
  let cutoff := today - (days : Int)
  let meetingAcc := (sortDesc (v.meetingFiles.filter (fun p => strEndsWith p.1 ".md"))).foldl
    (fun (acc : List String × List (String × String)) p =>
      if strEndsWith p.1 ".summary.md" then acc
      else
        match parseIsoDate10 (strTake p.1 10) with
        | none => acc
        | some fileDate =>
          if cutoff ≤ fileDate then
            if strStrip p.2 ≠ "" then
              if 5000 < p.2.length then
                let r := summarize_meeting (stemOf p.1) p.2 (some acc.2)
                  (summ (stemOf p.1)) cacheWriteFails
                (acc.1 ++ ["=== MEETING " ++ stemOf p.1 ++ " ===\n" ++ r.1],
                  r.2.1.getD acc.2)
              else
                (acc.1 ++ ["=== MEETING " ++ stemOf p.1 ++ " ===\n" ++ p.2], acc.2)
            else acc
          else acc) ([], v.meetingFiles)
  let thoughtParts := (sortDesc (v.thoughtFiles.filter (fun p => strEndsWith p.1 ".md"))).foldl
    (fun parts p =>
      match parseIsoDate10 (strTake p.1 10) with
      | none => parts
      | some fileDate =>
        if cutoff ≤ fileDate then
          if strStrip p.2 ≠ "" then
            parts ++ ["=== THOUGHT " ++ stemOf p.1 ++ " ===\n" ++ p.2]
          else parts
        else parts) []
  let parts := dailyParts ++ meetingAcc.1 ++ thoughtParts
  if parts = [] then ("", meetingAcc.2)
  else (String.intercalate "\n\n" parts, meetingAcc.2)

/-! ## Saves (overwrite-only artifact writes with frontmatter) -/

def seedsFrontmatter (d : Int) : String :=
  "---\ndate: " ++ isoformatOrd d ++ "\ntype: content-seeds\nweek: "
    ++ weekIdOf d ++ "\n---\n\n"

def planFrontmatter (d : Int) : String :=
  "---\ndate: " ++ isoformatOrd d ++ "\ntype: content-plan\nweek: "
    ++ weekIdOf d ++ "\n---\n\n"

def summaryFrontmatter (d : Int) : String :=
  "---\ndate: " ++ isoformatOrd d ++ "\ntype: weekly-summary\nweek: "
    ++ weekIdOf d ++ "\n---\n\n"

/-- _save_content_seeds. -/
def save_content_seeds (v : Vault) (html : String) (seeds_date : Int) : Vault :=
  let content := seedsFrontmatter seeds_date ++ html_to_markdown html
  { v with seedFiles := storeWrite v.seedFiles (weekIdOf seeds_date ++ "-seeds.md") content }

/-- _save_content_plan. -/
def save_content_plan (v : Vault) (html : String) (plan_date : Int) : Vault :=
  let content := planFrontmatter plan_date ++ html_to_markdown html
  { v with planFiles := storeWrite v.planFiles (weekIdOf plan_date ++ "-plan.md") content }

/-- _save_weekly_summary; returns the written file name for the MOC update. -/
def save_weekly_summary (v : Vault) (report_html : String) (week_date : Int) :
    Vault × String :=
  let filename := weekIdOf week_date ++ "-summary.md"
  let content := summaryFrontmatter week_date ++ html_to_markdown report_html
  ({ v with summaryFiles := storeWrite v.summaryFiles filename content }, filename)

/-- _update_weekly_moc. -/
def update_weekly_moc (v : Vault) (summary_name : String) : Vault :=
  match v.mocWeekly with
  | none => v
  | some content =>
    let stem := stemOf summary_name
    let link := "- [[summaries/" ++ summary_name ++ "|" ++ stem ++ "]]"
    if pyContains content stem then v
    else
      { v with mocWeekly := some (pyReplace content "## Previous Weeks\n"
          ("## Previous Weeks\n\n" ++ link ++ "\n")) }

/-! ## Seed store, dismissal registry, publication matcher -/

/-- _extract_seed_titles: the eight most recent seed files (directory listing
sorted descending), each parsed into seed records, concatenated. -/
def extract_seed_titles (v : Vault) : List SeedT :=
  let seed_files := (sortDesc (v.seedFiles.filter (fun p => strEndsWith p.1 ".md"))).take 8
  seed_files.foldl (fun results p =>
    if p.1 = ".gitkeep" then results
    else results ++ parseSeedFile p.1 p.2) []

/-- _load_dismissed (a malformed or absent record is already represented as
the set it parses to; the set is the state). -/
def load_dismissed (v : Vault) : Finset String :=
  v.dismissed

/-- The composite registry key week:num of a seed. -/
def seedKey (s : SeedT) : String :=
  s.week ++ ":" ++ toString s.num

/-- dismiss_seeds: add each seed key not yet present, persist, and return the
count of newly added keys. -/
def dismiss_seeds (v : Vault) (seeds_to_dismiss : List SeedT) : Vault × Nat :=
  let r := seeds_to_dismiss.foldl (fun (acc : Finset String × Nat) s =>
    if seedKey s ∈ acc.1 then acc
    else (insert (seedKey s) acc.1, acc.2 + 1)) (load_dismissed v, 0)
  ({ v with dismissed := r.1 }, r.2)

/-- The dismissal-filtered seed list inside list_unpublished_seeds. -/
def activeSeeds (v : Vault) : List SeedT :=
  (extract_seed_titles v).filter (fun s => !(decide (seedKey s ∈ load_dismissed v)))

/-- The permissive parse of the matcher response: with a zero exit code and a
reply other than the literal none, every digit run in range 1..n names a
published seed; anything else yields the empty set. -/
def publishedIndicesOf (rc : Int) (stdout : String) (n : Nat) : Finset Nat :=
  if rc = 0 ∧ pyLower (strStrip stdout) ≠ "none" then
    (((digitRuns (strStrip stdout).data).map (fun r => natOfDigits r.data)).filter
      (fun k => decide (1 ≤ k ∧ k ≤ n))).toFinset
  else ∅

/-- list_unpublished_seeds.  The channel text only feeds the prompt handed to
the collaborator, whose outcome is the `collab` parameter.  Returns the result
dict and whether the collaborator call was reached. -/
def list_unpublished_seeds (v : Vault) (channel_posts : String)
    (collab : SubprocessOutcome) : PyDict × Bool :=
  let all_seeds := extract_seed_titles v
  if all_seeds = [] then
    ([("error", PyVal.str "Нет seeds. Запусти /content для генерации.")], false)
  else
    let active_seeds := activeSeeds v
    let dismissed_count := all_seeds.length - active_seeds.length
    if active_seeds = [] then
      ([("error", PyVal.str "Все seeds удалены или опубликованы. Запусти /content для новых.")], false)
    else
      match collab with
      | .completed rc out _ =>
        let published_indices := publishedIndicesOf rc out active_seeds.length
        let ann := active_seeds.mapIdx (fun i s => (s, decide ((i + 1) ∈ published_indices)))
        let unpublished := ann.filter (fun p => !p.2)
        ([("seeds", PyVal.annSeeds ann),
          ("unpublished", PyVal.annSeeds unpublished),
          ("total", PyVal.int all_seeds.length),
          ("published_count", PyVal.int published_indices.card),
          ("dismissed_count", PyVal.int dismissed_count)], true)
      | _ =>
        ([("seeds", PyVal.seeds active_seeds),
          ("unpublished", PyVal.seeds active_seeds),
          ("total", PyVal.int all_seeds.length),
          ("published_count", PyVal.int 0),
          ("dismissed_count", PyVal.int dismissed_count)], true)

/-! ## Plan store -/

/-- get_current_plan: resolve the week id for today plus the offset in weeks,
read the plan artifact, strip its frontmatter. -/
def get_current_plan (v : Vault) (today : Int) (week_offset : Int) : PyDict :=
  let target := today + 7 * week_offset
  let week_id := weekIdOf target
  let filename := week_id ++ "-plan.md"
  match v.planFiles.lookup filename with
  | none => [("error", PyVal.str ("План на " ++ week_id ++ " не найден"))]
  | some content =>
    [("plan", PyVal.str (stripFrontmatterStr content)),
     ("week", PyVal.str week_id),
     ("path", PyVal.str ("content/plans/" ++ filename))]

/-- plan_exists_for_week. -/
def plan_exists_for_week (v : Vault) (today : Int) (week_offset : Int) : Bool :=
  (v.planFiles.lookup (weekIdOf (today + 7 * week_offset) ++ "-plan.md")).isSome

/-- The smart week selection of the plan-generation callback (on_plan_new):
with a current-week plan present, target next week, else this week. -/
def smart_plan_target (v : Vault) (today : Int) : Int :=
  if plan_exists_for_week v today 0 then today + 7 else today

/-- _load_all_seeds: up to max_weeks most recent seed files, concatenated with
stem headers. -/
def load_all_seeds (v : Vault) (max_weeks : Nat) : String :=
  let seed_files := (sortDesc (v.seedFiles.filter (fun p => strEndsWith p.1 ".md"))).take max_weeks
  if seed_files = [] then ""
  else String.intercalate "\n\n"
    (seed_files.map (fun p => "=== " ++ stemOf p.1 ++ " ===\n" ++ p.2))

/-! ## Entry points.  Prompt assembly (skill and reference loads, session
context) only feeds the external collaborator and is not modelled; the
collaborator outcome is the `collab` parameter.  Each entry point returns its
result dict, together with the updated vault where it writes. -/

/-- process_daily. -/
def process_daily (v : Vault) (day : Int) (collab : SubprocessOutcome) : PyDict :=
  if (v.dailyFiles.lookup (isoformatOrd day ++ ".md")).isNone then
    [("error", PyVal.str ("No daily file for " ++ isoformatOrd day)),
     ("processed_entries", PyVal.int 0)]
  else
    match collab with
    | .completed rc out err =>
      if rc ≠ 0 then
        [("error", PyVal.str (pyOr err "Claude processing failed")),
         ("processed_entries", PyVal.int 0)]
      else
        [("report", PyVal.str (strStrip out)), ("processed_entries", PyVal.int 1)]
    | .timeoutExpired =>
      [("error", PyVal.str "Processing timed out"), ("processed_entries", PyVal.int 0)]
    | .fileNotFound _ =>
      [("error", PyVal.str "Claude CLI not installed"), ("processed_entries", PyVal.int 0)]
    | .raised m =>
      [("error", PyVal.str m), ("processed_entries", PyVal.int 0)]

/-- execute_prompt (the user prompt and user id feed the prompt only). -/
def execute_prompt (user_prompt : String) (user_id : Int)
    (collab : SubprocessOutcome) : PyDict :=
  match collab with
  | .completed rc out err =>
    if rc ≠ 0 then
      [("error", PyVal.str (pyOr err "Claude execution failed")),
       ("processed_entries", PyVal.int 0)]
    else
      [("report", PyVal.str (strStrip out)), ("processed_entries", PyVal.int 1)]
  | .timeoutExpired =>
    [("error", PyVal.str "Execution timed out"), ("processed_entries", PyVal.int 0)]
  | .fileNotFound _ =>
    [("error", PyVal.str "Claude CLI not installed"), ("processed_entries", PyVal.int 0)]
  | .raised m =>
    [("error", PyVal.str m), ("processed_entries", PyVal.int 0)]

/-- generate_weekly; saveFails models the guarded summary-save block raising
(the failure is only logged). -/
def generate_weekly (v : Vault) (today : Int) (collab : SubprocessOutcome)
    (saveFails : Bool) : PyDict × Vault :=
  match collab with
  | .completed rc out err =>
    if rc ≠ 0 then
      ([("error", PyVal.str (pyOr err "Weekly digest failed")),
        ("processed_entries", PyVal.int 0)], v)
    else
      let output := strStrip out
      let v2 :=
        if saveFails then v
        else
          let r := save_weekly_summary v output today
          update_weekly_moc r.1 r.2
      ([("report", PyVal.str output), ("processed_entries", PyVal.int 1)], v2)
  | .timeoutExpired =>
    ([("error", PyVal.str "Weekly digest timed out"), ("processed_entries", PyVal.int 0)], v)
  | .fileNotFound _ =>
    ([("error", PyVal.str "Claude CLI not installed"), ("processed_entries", PyVal.int 0)], v)
  | .raised m =>
    ([("error", PyVal.str m), ("processed_entries", PyVal.int 0)], v)

/-- generate_content_seeds. -/
def generate_content_seeds (v : Vault) (today : Int)
    (summ : String → SubprocessOutcome) (cacheWriteFails : Bool)
    (collab : SubprocessOutcome) (saveFails : Bool) : PyDict × Vault :=
  let collected := collect_raw_material v today 7 summ cacheWriteFails
  let v1 := { v with meetingFiles := collected.2 }
  if collected.1 = "" then
    ([("error", PyVal.str "Нет записей за последние 7 дней для генерации seeds"),
      ("processed_entries", PyVal.int 0)], v1)
  else
    match collab with
    | .completed rc out err =>
      if rc ≠ 0 then
        ([("error", PyVal.str (pyOr err "Content seeds generation failed")),
          ("processed_entries", PyVal.int 0)], v1)
      else
        let output := strStrip out
        let v2 := if saveFails then v1 else save_content_seeds v1 output today
        ([("report", PyVal.str output), ("processed_entries", PyVal.int 1)], v2)
    | .timeoutExpired =>
      ([("error", PyVal.str "Content seeds generation timed out"),
        ("processed_entries", PyVal.int 0)], v1)
    | .fileNotFound _ =>
      ([("error", PyVal.str "Claude CLI not installed"),
        ("processed_entries", PyVal.int 0)], v1)
    | .raised m =>
      ([("error", PyVal.str m), ("processed_entries", PyVal.int 0)], v1)

/-- generate_content_plan (the channel posts feed the prompt only). -/
def generate_content_plan (v : Vault) (target_date : Int) (channel_posts : String)
    (collab : SubprocessOutcome) (saveFails : Bool) : PyDict × Vault :=
  let seeds_content := load_all_seeds v 8
  if seeds_content = "" then
    ([("error", PyVal.str "Нет content seeds. Сначала запусти /content"),
      ("processed_entries", PyVal.int 0)], v)
  else
    match collab with
    | .completed rc out err =>
      if rc ≠ 0 then
        ([("error", PyVal.str (pyOr err "Content plan generation failed")),
          ("processed_entries", PyVal.int 0)], v)
      else
        let output := strStrip out
        let v2 := if saveFails then v else save_content_plan v output target_date
        ([("report", PyVal.str output), ("processed_entries", PyVal.int 1)], v2)
    | .timeoutExpired =>
      ([("error", PyVal.str "Content plan generation timed out"),
        ("processed_entries", PyVal.int 0)], v)
    | .fileNotFound _ =>
      ([("error", PyVal.str "Claude CLI not installed"),
        ("processed_entries", PyVal.int 0)], v)
    | .raised m =>
      ([("error", PyVal.str m), ("processed_entries", PyVal.int 0)], v)

/-- reconcile_plan_with_channel: requires the current-week plan; on its NotFound
error dict, returns it unchanged without reaching the collaborator.  The last
component records whether the collaborator call was reached.  A
FileNotFoundError here lands in the generic exception clause. -/
def reconcile_plan_with_channel (v : Vault) (today : Int) (channel_posts : String)
    (collab : SubprocessOutcome) (saveFails : Bool) : PyDict × Vault × Bool :=
  let plan_data := get_current_plan v today 0
  if (plan_data.lookup "error").isSome then (plan_data, v, false)
  else
    match collab with
    | .completed rc out err =>
      if rc ≠ 0 then
        ([("error", PyVal.str (pyOr err "Reconciliation failed")),
          ("processed_entries", PyVal.int 0)], v, true)
      else
        let output := strStrip out
        let v2 := if saveFails then v else save_content_plan v output today
        ([("report", PyVal.str output), ("processed_entries", PyVal.int 1)], v2, true)
    | .timeoutExpired =>
      ([("error", PyVal.str "Reconciliation timed out"),
        ("processed_entries", PyVal.int 0)], v, true)
    | .fileNotFound m =>
      ([("error", PyVal.str m), ("processed_entries", PyVal.int 0)], v, true)
    | .raised m =>
      ([("error", PyVal.str m), ("processed_entries", PyVal.int 0)], v, true)

/-- edit_plan: same precondition and save pattern as reconciliation. -/
def edit_plan (v : Vault) (today : Int) (user_request : String)
    (collab : SubprocessOutcome) (saveFails : Bool) : PyDict × Vault × Bool :=
  let plan_data := get_current_plan v today 0
  if (plan_data.lookup "error").isSome then (plan_data, v, false)
  else
    match collab with
    | .completed rc out err =>
      if rc ≠ 0 then
        ([("error", PyVal.str (pyOr err "Plan edit failed")),
          ("processed_entries", PyVal.int 0)], v, true)
      else
        let output := strStrip out
        let v2 := if saveFails then v else save_content_plan v output today
        ([("report", PyVal.str output), ("processed_entries", PyVal.int 1)], v2, true)
    | .timeoutExpired =>
      ([("error", PyVal.str "Plan edit timed out"),
        ("processed_entries", PyVal.int 0)], v, true)
    | .fileNotFound m =>
      ([("error", PyVal.str m), ("processed_entries", PyVal.int 0)], v, true)
    | .raised m =>
      ([("error", PyVal.str m), ("processed_entries", PyVal.int 0)], v, true)

/-! ## Result shapes -/

/-- The uniform success shape: report plus processed_entries = 1. -/
def isSuccessShape (d : PyDict) : Prop :=
  ∃ r, d = [("report", PyVal.str r), ("processed_entries", PyVal.int 1)]

/-- The uniform failure shape: error plus processed_entries = 0. -/
def isFailureShape (d : PyDict) : Prop :=
  ∃ e, d = [("error", PyVal.str e), ("processed_entries", PyVal.int 0)]

/-- A bare error dict with no processed_entries key. -/
def isBareErrorShape (d : PyDict) : Prop :=
  ∃ e, d = [("error", PyVal.str e)]

/-- The plan-retrieval success shape: plan, week, path. -/
def isPlanShape (d : PyDict) : Prop :=
  ∃ p w pa, d = [("plan", PyVal.str p), ("week", PyVal.str w), ("path", PyVal.str pa)]

/-- The seed-listing success shape: seeds, unpublished, total, published_count,
dismissed_count. -/
def isSeedListShape (d : PyDict) : Prop :=
  ∃ a u t pc dc, d = [("seeds", a), ("unpublished", u), ("total", PyVal.int t),
    ("published_count", PyVal.int pc), ("dismissed_count", PyVal.int dc)]

/-- One of the two uniform shapes of the claimed result contract. -/
def isUniformShape (d : PyDict) : Prop :=
  isSuccessShape d ∨ isFailureShape d

/-- A uniform shape, or the bare error dict of the plan read. -/
def isUniformOrBareShape (d : PyDict) : Prop :=
  isSuccessShape d ∨ isFailureShape d ∨ isBareErrorShape d

/-- What plan retrieval actually returns. -/
def isPlanReadShape (d : PyDict) : Prop :=
  isPlanShape d ∨ isBareErrorShape d

/-- What the unpublished-seed listing actually returns. -/
def isListingShape (d : PyDict) : Prop :=
  isSeedListShape d ∨ isBareErrorShape d

/-! ## Shared concrete inputs for witnesses and counterexamples -/

/-- An ordinal date inside 2026: 2026-10-12, a Monday of ISO week 2026-W42. -/
def ord20261012 : Int := 739901

/-- A seed file in the shape the generator emits. -/
def sampleSeedText : String :=
  "---\nweek: 2026-W07\n---\n\nSeed #1: Alpha\nbody a\nSeed #2: Beta\nbody b"

def emptyVault : Vault :=
  { dailyFiles := [], meetingFiles := [], thoughtFiles := [], seedFiles := []
    planFiles := [], summaryFiles := [], mocWeekly := none, dismissed := ∅ }

def seedVault : Vault :=
  { emptyVault with seedFiles := [("2026-W07-seeds.md", sampleSeedText)] }

def sampleSeed : SeedT :=
  { week := "2026-W07", num := 1, title := "Alpha", full_text := "Seed #1: Alpha\nbody a" }

/-! # Claims -/

/-- C3: dismissing a seed whose composite key week:number is not in the
registry adds exactly one key (the registry grows by one) and returns a
newly-added count of 1; dismissing the same seed again returns 0 and leaves
the registry unchanged. -/
theorem dismiss_seeds_idempotent (v : Vault) (s : SeedT)
    (h : seedKey s ∉ load_dismissed v) :
    (dismiss_seeds v [s]).2 = 1
    ∧ (dismiss_seeds v [s]).1.dismissed = insert (seedKey s) v.dismissed
    ∧ (dismiss_seeds v [s]).1.dismissed.card = v.dismissed.card + 1
    ∧ (dismiss_seeds (dismiss_seeds v [s]).1 [s]).2 = 0
    ∧ (dismiss_seeds (dismiss_seeds v [s]).1 [s]).1.dismissed
        = (dismiss_seeds v [s]).1.dismissed := by
  unfold load_dismissed at h
  refine ⟨?_, ?_, ?_, ?_, ?_⟩
  · simp [dismiss_seeds, load_dismissed, h]
  · simp [dismiss_seeds, load_dismissed, h]
  · simp [dismiss_seeds, load_dismissed, h, Finset.card_insert_of_not_mem h]
  · simp [dismiss_seeds, load_dismissed, h, Finset.mem_insert]
  · simp [dismiss_seeds, load_dismissed, h, Finset.mem_insert]

/-- C3 witness: the theorem at a concrete seed and an empty registry. -/
theorem dismiss_seeds_idempotent_witness :
    (dismiss_seeds emptyVault [sampleSeed]).2 = 1
    ∧ (dismiss_seeds emptyVault [sampleSeed]).1.dismissed
        = insert (seedKey sampleSeed) emptyVault.dismissed
    ∧ (dismiss_seeds emptyVault [sampleSeed]).1.dismissed.card
        = emptyVault.dismissed.card + 1
    ∧ (dismiss_seeds (dismiss_seeds emptyVault [sampleSeed]).1 [sampleSeed]).2 = 0
    ∧ (dismiss_seeds (dismiss_seeds emptyVault [sampleSeed]).1 [sampleSeed]).1.dismissed
        = (dismiss_seeds emptyVault [sampleSeed]).1.dismissed :=
  dismiss_seeds_idempotent emptyVault sampleSeed (by decide)

/-- Cache-hit test of the summary cache: an entry for the source name whose
text is nonempty after stripping. -/
def hasCacheHit (name : String) (cache_dir : Option (List (String × String))) : Bool :=
  match cache_dir with
  | none => false
  | some files =>
    match files.lookup (name ++ ".summary.md") with
    | some cached => strStrip cached ≠ ""
    | none => false

/-- A failed summarization outcome: any exception, a non-zero exit, or empty
stdout after stripping. -/
def summarizeFailed (collab : SubprocessOutcome) : Prop :=
  match collab with
  | .completed rc out _ => rc ≠ 0 ∨ strStrip out = ""
  | _ => True

/-- C6: when the summarization collaborator fails (timeout, non-zero exit,
exception, or empty output) and the cache has no valid entry, the summarizer
returns the original source text unchanged and writes no cache entry (so the
collaborator would be consulted again on a repeat call); no exception
propagates (the embedding is a total function into the result triple). -/
theorem summarize_meeting_fail_open (name text : String)
    (cache_dir : Option (List (String × String))) (collab : SubprocessOutcome)
    (cacheWriteFails : Bool)
    (hmiss : hasCacheHit name cache_dir = false)
    (hfail : summarizeFailed collab) :
    summarize_meeting name text cache_dir collab cacheWriteFails
      = (text, cache_dir, true) := by
  unfold summarize_meeting
  unfold hasCacheHit at hmiss
  cases cache_dir with
  | none =>
    cases collab with
    | completed rc out err =>
      unfold summarizeFailed at hfail
      have : ¬ (rc = 0 ∧ strStrip out ≠ "") := by
        rcases hfail with h | h
        · exact fun hc => h hc.1
        · exact fun hc => hc.2 h
      simp only [if_neg this]
    | timeoutExpired => rfl
    | fileNotFound m => rfl
    | raised m => rfl
  | some files =>
    rcases hl : files.lookup (name ++ ".summary.md") with _ | cached
    · simp only [hl]
      cases collab with
      | completed rc out err =>
        unfold summarizeFailed at hfail
        have : ¬ (rc = 0 ∧ strStrip out ≠ "") := by
          rcases hfail with h | h
          · exact fun hc => h hc.1
          · exact fun hc => hc.2 h
        simp only [if_neg this]
      | timeoutExpired => rfl
      | fileNotFound m => rfl
      | raised m => rfl
    · simp only [hl] at hmiss ⊢
      have hemp : ¬ (strStrip cached ≠ "") := by
        intro hc
        simp [hc] at hmiss
      simp only [if_neg hemp]
      cases collab with
      | completed rc out err =>
        unfold summarizeFailed at hfail
        have : ¬ (rc = 0 ∧ strStrip out ≠ "") := by
          rcases hfail with h | h
          · exact fun hc => h hc.1
          · exact fun hc => hc.2 h
        simp only [if_neg this]
      | timeoutExpired => rfl
      | fileNotFound m => rfl
      | raised m => rfl

/-- C6 witness: a timing-out collaborator with an empty cache returns the
source text unchanged, leaves the cache untouched and reaches the
collaborator. -/
theorem summarize_meeting_fail_open_witness :
    summarize_meeting "2026-10-10-standup" "long transcript" (some []) SubprocessOutcome.timeoutExpired false
      = ("long transcript", some [], true) :=
  summarize_meeting_fail_open "2026-10-10-standup" "long transcript" (some [])
    SubprocessOutcome.timeoutExpired false (by decide) trivial

/-- C7: with an existing non-empty cache entry for the source name, the
summarizer returns that entry annotated as cached (the SUMMARY prefix) and
does not reach the collaborator at all (so a summarize-once-then-recollect
sequence leaves the collaborator call count at one); the cache is unchanged. -/
theorem summarize_meeting_cache_hit (name text : String)
    (files : List (String × String)) (collab : SubprocessOutcome)
    (cacheWriteFails : Bool) (cached : String)
    (hl : files.lookup (name ++ ".summary.md") = some cached)
    (hne : strStrip cached ≠ "") :
    summarize_meeting name text (some files) collab cacheWriteFails
      = ("[SUMMARY]\n" ++ cached, some files, false) := by
  unfold summarize_meeting
  simp only [hl, if_pos hne]

/-- C7 witness: concrete cache directory with an entry for the transcript. -/
theorem summarize_meeting_cache_hit_witness :
    summarize_meeting "2026-10-10-standup" "long transcript"
      (some [("2026-10-10-standup.summary.md", "the digest")])
      SubprocessOutcome.timeoutExpired false
      = ("[SUMMARY]\n" ++ "the digest", some [("2026-10-10-standup.summary.md", "the digest")], false) :=
  summarize_meeting_cache_hit "2026-10-10-standup" "long transcript"
    [("2026-10-10-standup.summary.md", "the digest")]
    SubprocessOutcome.timeoutExpired false "the digest" (by decide) (by decide)

/-- C8: when a plan exists for the current week (offset 0), the smart default
generation target is the week at offset +1; otherwise it is the current week
(offset 0). -/
theorem smart_plan_target_selection (v : Vault) (today : Int) :
    (plan_exists_for_week v today 0 = true
      → weekIdOf (smart_plan_target v today) = weekIdOf (today + 7 * 1))
    ∧ (plan_exists_for_week v today 0 = false
      → weekIdOf (smart_plan_target v today) = weekIdOf (today + 7 * 0)) := by
  constructor
  · intro h
    unfold smart_plan_target
    rw [if_pos h]
    norm_num
  · intro h
    unfold smart_plan_target
    rw [if_neg (by simp [h])]
    norm_num

/-- C8 witness: a vault holding a plan for the current week of 2026-10-12
targets 2026-W43; the empty vault targets 2026-W42. -/
theorem smart_plan_target_selection_witness :
    weekIdOf (smart_plan_target { emptyVault with planFiles := [("2026-W42-plan.md", "p")] } ord20261012)
      = weekIdOf (ord20261012 + 7 * 1)
    ∧ weekIdOf (smart_plan_target emptyVault ord20261012)
      = weekIdOf (ord20261012 + 7 * 0) :=
  ⟨(smart_plan_target_selection _ ord20261012).1 (by decide),
   (smart_plan_target_selection emptyVault ord20261012).2 (by decide)⟩

/-- C4: when no plan artifact exists for the current week, both edit and
reconcile return the NotFound error dict of the plan read, do not reach the
generation collaborator, and leave the vault (in particular the plan store)
unchanged. -/
theorem plan_ops_require_existing_plan (v : Vault) (today : Int)
    (channel req : String) (collab1 collab2 : SubprocessOutcome) (sf1 sf2 : Bool)
    (h : plan_exists_for_week v today 0 = false) :
    reconcile_plan_with_channel v today channel collab1 sf1
      = ([("error", PyVal.str ("План на " ++ weekIdOf today ++ " не найден"))], v, false)
    ∧ edit_plan v today req collab2 sf2
      = ([("error", PyVal.str ("План на " ++ weekIdOf today ++ " не найден"))], v, false) := by
  have e0 : today + 7 * 0 = today := by ring
  have hl : v.planFiles.lookup (weekIdOf today ++ "-plan.md") = none := by
    unfold plan_exists_for_week at h
    rw [e0] at h
    rcases hx : v.planFiles.lookup (weekIdOf today ++ "-plan.md") with _ | c
    · rfl
    · rw [hx] at h
      simp at h
  have hg : get_current_plan v today 0
      = [("error", PyVal.str ("План на " ++ weekIdOf today ++ " не найден"))] := by
    simp only [get_current_plan, e0, hl]
  constructor
  · simp only [reconcile_plan_with_channel, hg]
    rfl
  · simp only [edit_plan, hg]
    rfl

/-- C4 witness: the empty vault holds no plan for the week of 2026-10-12. -/
theorem plan_ops_require_existing_plan_witness :
    reconcile_plan_with_channel emptyVault ord20261012 "posts" SubprocessOutcome.timeoutExpired false
      = ([("error", PyVal.str ("План на " ++ weekIdOf ord20261012 ++ " не найден"))], emptyVault, false)
    ∧ edit_plan emptyVault ord20261012 "swap day 2" SubprocessOutcome.timeoutExpired false
      = ([("error", PyVal.str ("План на " ++ weekIdOf ord20261012 ++ " не найден"))], emptyVault, false) :=
  plan_ops_require_existing_plan emptyVault ord20261012 "posts" "swap day 2"
    SubprocessOutcome.timeoutExpired SubprocessOutcome.timeoutExpired false false (by decide)

/-- C10: when the seed artifacts yield seeds but every one is dismissed, the
seed listing returns its error dict without reaching the classification
collaborator. -/
theorem all_dismissed_short_circuit (v : Vault) (channel : String)
    (collab : SubprocessOutcome)
    (hall : extract_seed_titles v ≠ [])
    (hact : activeSeeds v = []) :
    list_unpublished_seeds v channel collab
      = ([("error", PyVal.str "Все seeds удалены или опубликованы. Запусти /content для новых.")], false) := by
  unfold list_unpublished_seeds
  simp only [if_neg hall, hact, if_pos]

/-- C10 witness: both seeds of the sample file dismissed. -/
theorem all_dismissed_short_circuit_witness :
    list_unpublished_seeds
        { seedVault with dismissed := {"2026-W07:1", "2026-W07:2"} }
        "posts" SubprocessOutcome.timeoutExpired
      = ([("error", PyVal.str "Все seeds удалены или опубликованы. Запусти /content для новых.")], false) :=
  all_dismissed_short_circuit _ "posts" SubprocessOutcome.timeoutExpired
    (by decide) (by decide)

/-- The matcher call failed or produced nothing usable: any exception during
the call, or a completed call whose permissive parse is empty (non-zero exit,
the literal none, or no in-range indices). -/
def matcherFailed (collab : SubprocessOutcome) (n : Nat) : Prop :=
  match collab with
  | .completed rc out _ => publishedIndicesOf rc out n = ∅
  | _ => True

/-- The underlying seed list of the unpublished entry of a result dict. -/
def unpubOf (d : PyDict) : Option (List SeedT) :=
  match d.lookup "unpublished" with
  | some (PyVal.seeds l) => some l
  | some (PyVal.annSeeds l) => some (l.map Prod.fst)
  | _ => none

lemma mapIdx_id_of_fst (l : List SeedT) (g : Nat → SeedT → SeedT × Bool)
    (hg : ∀ i s, g i s = (s, false)) :
    (l.mapIdx g).map Prod.fst = l
    ∧ (l.mapIdx g).filter (fun p => !p.2) = l.mapIdx g := by
  induction l generalizing g with
  | nil => simp
  | cons a t ih =>
    rw [List.mapIdx_cons]
    have ih2 := ih (fun i => g (i + 1)) (fun i s => hg (i + 1) s)
    constructor
    · simp only [List.map_cons, hg 0 a, ih2.1]
    · simp only [List.filter_cons, hg 0 a]
      simp only [Bool.not_false, if_pos]
      rw [ih2.2]

/-- C1: whenever the matcher collaborator fails (exception, timeout, non-zero
exit) or its response parses to no usable index, the seed listing treats every
active seed as unpublished: published_count is 0 and the unpublished entry is
the full active seed list; no exception reaches the caller (the embedding is
total). -/
theorem matcher_fail_open (v : Vault) (channel : String)
    (collab : SubprocessOutcome)
    (hact : activeSeeds v ≠ [])
    (hfail : matcherFailed collab (activeSeeds v).length) :
    (list_unpublished_seeds v channel collab).1.lookup "published_count"
        = some (PyVal.int 0)
    ∧ unpubOf (list_unpublished_seeds v channel collab).1 = some (activeSeeds v) := by
  have hall : extract_seed_titles v ≠ [] := by
    intro he
    exact hact (by simp [activeSeeds, he])
  unfold list_unpublished_seeds
  simp only [if_neg hall, if_neg hact]
  cases collab with
  | completed rc out err =>
    simp only [matcherFailed] at hfail
    have hmap := mapIdx_id_of_fst (activeSeeds v)
      (fun i s => (s, false)) (fun i s => rfl)
    constructor
    · simp only [List.lookup, hfail, Finset.not_mem_empty, decide_False,
        Finset.card_empty, Nat.cast_zero]
      rfl
    · simp only [unpubOf, List.lookup, hfail, Finset.not_mem_empty, decide_False]
      have h2 : List.map Prod.fst (List.filter (fun p => !p.2)
          (List.mapIdx (fun i s => (s, false)) (activeSeeds v))) = activeSeeds v := by
        rw [hmap.2]
        exact hmap.1
      exact congrArg some h2
  | timeoutExpired => exact ⟨rfl, rfl⟩
  | fileNotFound m => exact ⟨rfl, rfl⟩
  | raised m => exact ⟨rfl, rfl⟩

/-- C1 witness: a timing-out matcher call over the sample seed file reports
zero published and returns every active seed as unpublished. -/
theorem matcher_fail_open_witness :
    activeSeeds seedVault ≠ []
    ∧ (list_unpublished_seeds seedVault "posts" SubprocessOutcome.timeoutExpired).1.lookup "published_count"
        = some (PyVal.int 0)
    ∧ unpubOf (list_unpublished_seeds seedVault "posts" SubprocessOutcome.timeoutExpired).1
        = some (activeSeeds seedVault) :=
  ⟨by decide,
   matcher_fail_open seedVault "posts" SubprocessOutcome.timeoutExpired (by decide) trivial⟩

/-- C9: for each generation operation (seeds, plan, reconcile, edit), a
successful collaborator call whose artifact save then fails still yields the
success dict {report, processed_entries = 1}, and the corresponding artifact
store is unchanged: the success shape does not guarantee the artifact was
written. -/
theorem save_failure_still_success (v : Vault) (today target : Int)
    (summ : String → SubprocessOutcome) (cwf : Bool)
    (out err channel req : String) :
    ((collect_raw_material v today 7 summ cwf).1 ≠ "" →
      (generate_content_seeds v today summ cwf (SubprocessOutcome.completed 0 out err) true).1
          = [("report", PyVal.str (strStrip out)), ("processed_entries", PyVal.int 1)]
      ∧ (generate_content_seeds v today summ cwf (SubprocessOutcome.completed 0 out err) true).2.seedFiles
          = v.seedFiles)
    ∧ (load_all_seeds v 8 ≠ "" →
      generate_content_plan v target channel (SubprocessOutcome.completed 0 out err) true
        = ([("report", PyVal.str (strStrip out)), ("processed_entries", PyVal.int 1)], v))
    ∧ (plan_exists_for_week v today 0 = true →
      reconcile_plan_with_channel v today channel (SubprocessOutcome.completed 0 out err) true
        = ([("report", PyVal.str (strStrip out)), ("processed_entries", PyVal.int 1)], v, true))
    ∧ (plan_exists_for_week v today 0 = true →
      edit_plan v today req (SubprocessOutcome.completed 0 out err) true
        = ([("report", PyVal.str (strStrip out)), ("processed_entries", PyVal.int 1)], v, true)) := by
  have e0 : today + 7 * 0 = today := by ring
  have hge : ∀ h : plan_exists_for_week v today 0 = true,
      (get_current_plan v today 0).lookup "error" = none := by
    intro h
    unfold plan_exists_for_week at h
    rw [e0] at h
    rcases hx : v.planFiles.lookup (weekIdOf today ++ "-plan.md") with _ | c
    · rw [hx] at h
      simp at h
    · simp only [get_current_plan, e0, hx]
      rfl
  refine ⟨?_, ?_, ?_, ?_⟩
  · intro hcol
    constructor
    · simp only [generate_content_seeds, if_neg hcol]
      rfl
    · simp only [generate_content_seeds, if_neg hcol]
      rfl
  · intro hseeds
    simp only [generate_content_plan, if_neg hseeds]
    rfl
  · intro h
    simp only [reconcile_plan_with_channel, hge h]
    rfl
  · intro h
    simp only [edit_plan, hge h]
    rfl

/-- C9 vault: a daily note, a seed file and a current-week plan present. -/
def fullVault : Vault :=
  { emptyVault with
    dailyFiles := [("2026-10-12.md", "note text")]
    seedFiles := [("2026-W07-seeds.md", sampleSeedText)]
    planFiles := [("2026-W42-plan.md", "plan body")] }

/-- C9 witness: the theorem at the populated vault on 2026-10-12, with material,
seeds and plan all present and a successful collaborator reply OUT. -/
theorem save_failure_still_success_witness :
    ((generate_content_seeds fullVault ord20261012 (fun _ => SubprocessOutcome.timeoutExpired)
        false (SubprocessOutcome.completed 0 "OUT" "") true).1
        = [("report", PyVal.str (strStrip "OUT")), ("processed_entries", PyVal.int 1)]
      ∧ (generate_content_seeds fullVault ord20261012 (fun _ => SubprocessOutcome.timeoutExpired)
        false (SubprocessOutcome.completed 0 "OUT" "") true).2.seedFiles
        = fullVault.seedFiles)
    ∧ generate_content_plan fullVault ord20261012 "posts" (SubprocessOutcome.completed 0 "OUT" "") true
        = ([("report", PyVal.str (strStrip "OUT")), ("processed_entries", PyVal.int 1)], fullVault)
    ∧ reconcile_plan_with_channel fullVault ord20261012 "posts" (SubprocessOutcome.completed 0 "OUT" "") true
        = ([("report", PyVal.str (strStrip "OUT")), ("processed_entries", PyVal.int 1)], fullVault, true)
    ∧ edit_plan fullVault ord20261012 "req" (SubprocessOutcome.completed 0 "OUT" "") true
        = ([("report", PyVal.str (strStrip "OUT")), ("processed_entries", PyVal.int 1)], fullVault, true) :=
  let t := save_failure_still_success fullVault ord20261012 ord20261012
    (fun _ => SubprocessOutcome.timeoutExpired) false "OUT" "" "posts" "req"
  ⟨t.1 (by decide), t.2.1 (by decide), t.2.2.1 (by decide), t.2.2.2 (by decide)⟩

lemma get_current_plan_shape (v : Vault) (today off : Int) :
    isPlanReadShape (get_current_plan v today off) := by
  rcases hx : List.lookup (weekIdOf (today + 7 * off) ++ "-plan.md") v.planFiles with _ | c
  · right
    refine ⟨"План на " ++ weekIdOf (today + 7 * off) ++ " не найден", ?_⟩
    simp only [get_current_plan, hx]
  · left
    refine ⟨stripFrontmatterStr c, weekIdOf (today + 7 * off),
      "content/plans/" ++ (weekIdOf (today + 7 * off) ++ "-plan.md"), ?_⟩
    simp only [get_current_plan, hx]

lemma get_current_plan_error_of_isSome (v : Vault) (today off : Int)
    (h : ((get_current_plan v today off).lookup "error").isSome = true) :
    isBareErrorShape (get_current_plan v today off) := by
  rcases get_current_plan_shape v today off with hp | he
  · exfalso
    rcases hp with ⟨p, w, pa, hd⟩
    rw [hd] at h
    rw [show (([("plan", PyVal.str p), ("week", PyVal.str w),
        ("path", PyVal.str pa)] : PyDict).lookup "error") = none from rfl] at h
    exact Bool.noConfusion h
  · exact he

/-- C2 counterexample: plan retrieval, one of the core entry points the claim
covers, returns {plan, week, path} on a state holding a current-week plan —
neither the success shape {report, processed_entries 1} nor the failure shape
{error, processed_entries 0}. -/
theorem result_contract_counterexample :
    ¬ (isSuccessShape (get_current_plan fullVault ord20261012 0)
      ∨ isFailureShape (get_current_plan fullVault ord20261012 0)) := by
  have hv : get_current_plan fullVault ord20261012 0
      = [("plan", PyVal.str "plan body"), ("week", PyVal.str "2026-W42"),
         ("path", PyVal.str "content/plans/2026-W42-plan.md")] := by decide
  rw [hv]
  rintro (⟨r, h⟩ | ⟨e, h⟩) <;> simp at h

/-- C2 amended: the five generation entry points (daily processing, prompt
execution, weekly digest, seed generation, plan generation) always return one
of the two uniform shapes; plan edit and plan reconciliation do too except on
their missing-plan path, which returns the bare {error} dict of the plan read
(no processed_entries key); plan retrieval returns {plan, week, path} or a
bare {error}; the unpublished-seed listing returns {seeds, unpublished, total,
published_count, dismissed_count} or a bare {error}. -/
theorem result_shapes_amended :
    (∀ v day collab, isUniformShape (process_daily v day collab))
    ∧ (∀ p uid collab, isUniformShape (execute_prompt p uid collab))
    ∧ (∀ v today collab sf, isUniformShape (generate_weekly v today collab sf).1)
    ∧ (∀ v today summ cwf collab sf,
      isUniformShape (generate_content_seeds v today summ cwf collab sf).1)
    ∧ (∀ v target ch collab sf,
      isUniformShape (generate_content_plan v target ch collab sf).1)
    ∧ (∀ v today ch collab sf,
      isUniformOrBareShape (reconcile_plan_with_channel v today ch collab sf).1)
    ∧ (∀ v today req collab sf,
      isUniformOrBareShape (edit_plan v today req collab sf).1)
    ∧ (∀ v today off, isPlanReadShape (get_current_plan v today off))
    ∧ (∀ v ch collab, isListingShape (list_unpublished_seeds v ch collab).1) := by
  refine ⟨?_, ?_, ?_, ?_, ?_, ?_, ?_, ?_, ?_⟩
  · intro v day collab
    cases collab <;> simp only [process_daily] <;> (try split_ifs) <;>
      first
        | exact Or.inl ⟨_, rfl⟩
        | exact Or.inr ⟨_, rfl⟩
  · intro p uid collab
    cases collab <;> simp only [execute_prompt] <;> (try split_ifs) <;>
      first
        | exact Or.inl ⟨_, rfl⟩
        | exact Or.inr ⟨_, rfl⟩
  · intro v today collab sf
    cases collab <;> simp only [generate_weekly] <;> (try split_ifs) <;>
      first
        | exact Or.inl ⟨_, rfl⟩
        | exact Or.inr ⟨_, rfl⟩
  · intro v today summ cwf collab sf
    cases collab <;> simp only [generate_content_seeds] <;> (try split_ifs) <;>
      first
        | exact Or.inl ⟨_, rfl⟩
        | exact Or.inr ⟨_, rfl⟩
  · intro v target ch collab sf
    cases collab <;> simp only [generate_content_plan] <;> (try split_ifs) <;>
      first
        | exact Or.inl ⟨_, rfl⟩
        | exact Or.inr ⟨_, rfl⟩
  · intro v today ch collab sf
    cases collab <;> simp only [reconcile_plan_with_channel] <;> (try split_ifs with h1 h2) <;>
      first
        | exact Or.inr (Or.inr (get_current_plan_error_of_isSome v today 0 h1))
        | exact Or.inl ⟨_, rfl⟩
        | exact Or.inr (Or.inl ⟨_, rfl⟩)
  · intro v today req collab sf
    cases collab <;> simp only [edit_plan] <;> (try split_ifs with h1 h2) <;>
      first
        | exact Or.inr (Or.inr (get_current_plan_error_of_isSome v today 0 h1))
        | exact Or.inl ⟨_, rfl⟩
        | exact Or.inr (Or.inl ⟨_, rfl⟩)
  · exact get_current_plan_shape
  · intro v ch collab
    cases collab <;> simp only [list_unpublished_seeds] <;> (try split_ifs) <;>
      first
        | exact Or.inl ⟨_, _, _, _, _, rfl⟩
        | exact Or.inr ⟨_, rfl⟩

/-! ## Claim C5: ordering of the extracted seed list -/

/-- The seed files the extraction walks: the eight most recent by name
(directory listing sorted descending), minus the gitkeep marker. -/
def seedFilesChosen (v : Vault) : List (String × String) :=
  ((sortDesc (v.seedFiles.filter (fun p => strEndsWith p.1 ".md"))).take 8).filter
    (fun p => decide (p.1 ≠ ".gitkeep"))

/-- The header matches of one seed file body, in scan order. -/
def seedHeaders (content : String) : List (Nat × Nat × List Char) :=
  scanSeeds (stripFrontmatterCs content.data) 0

lemma foldl_skip_append (l : List (String × String)) (acc : List SeedT) :
    l.foldl (fun results p =>
        if p.1 = ".gitkeep" then results else results ++ parseSeedFile p.1 p.2) acc
      = acc ++ (l.filter (fun p => decide (p.1 ≠ ".gitkeep"))).flatMap
          (fun p => parseSeedFile p.1 p.2) := by
  induction l generalizing acc with
  | nil => simp
  | cons a t ih =>
    by_cases h : a.1 = ".gitkeep"
    · simp [List.foldl_cons, h, ih]
    · simp [List.foldl_cons, h, ih]

lemma matchAfterStars_len_pos (k : Nat) (cs : List Char) (len num : Nat)
    (title : List Char) (h : matchAfterStars k cs = some (len, num, title)) :
    1 ≤ len := by
  simp only [matchAfterStars] at h
  repeat' split at h
  all_goals first
    | (injection h with h1
       injection h1 with h2 h3
       omega)
    | simp at h

lemma matchSeedAt_len_pos (cs : List Char) (len num : Nat) (title : List Char)
    (h : matchSeedAt cs = some (len, num, title)) : 1 ≤ len := by
  unfold matchSeedAt at h
  split at h
  · next r heq =>
    split at heq
    · injection h with h1
      subst h1
      exact matchAfterStars_len_pos _ _ _ _ _ heq
    · exact absurd heq (by simp)
  · split at h
    · next r heq =>
      split at heq
      · injection h with h1
        subst h1
        exact matchAfterStars_len_pos _ _ _ _ _ heq
      · exact absurd heq (by simp)
    · exact matchAfterStars_len_pos _ _ _ _ _ h

lemma scanSeedsF_lb (fuel : Nat) : ∀ (cs : List Char) (pos : Nat)
    (x : Nat × Nat × List Char), x ∈ scanSeedsF fuel cs pos → pos ≤ x.1 := by
  induction fuel with
  | zero =>
    intro cs pos x hx
    simp [scanSeedsF] at hx
  | succ fuel ih =>
    intro cs pos x hx
    cases cs with
    | nil => simp [scanSeedsF] at hx
    | cons c rest =>
      rw [scanSeedsF] at hx
      rcases hm : matchSeedAt (c :: rest) with _ | r
      · rw [hm] at hx
        have := ih rest (pos + 1) x hx
        omega
      · rw [hm] at hx
        rcases r with ⟨len, num, title⟩
        rcases List.mem_cons.mp hx with he | ht
        · rw [he]
        · have := ih (rest.drop (len - 1)) (pos + len) x ht
          omega

lemma scanSeedsF_chain (fuel : Nat) : ∀ (cs : List Char) (pos : Nat),
    List.Chain' (· < ·) ((scanSeedsF fuel cs pos).map (fun h => h.1)) := by
  induction fuel with
  | zero =>
    intro cs pos
    simp [scanSeedsF]
  | succ fuel ih =>
    intro cs pos
    cases cs with
    | nil => simp [scanSeedsF]
    | cons c rest =>
      rw [scanSeedsF]
      rcases hm : matchSeedAt (c :: rest) with _ | r
      · exact ih rest (pos + 1)
      · rcases r with ⟨len, num, title⟩
        have hlen : 1 ≤ len := matchSeedAt_len_pos _ _ _ _ hm
        rw [List.map_cons]
        rcases ht : scanSeedsF fuel (rest.drop (len - 1)) (pos + len) with _ | ⟨y, tl⟩
        · simp
        · rw [List.map_cons]
          refine List.Chain'.cons ?_ ?_
          · have hy : pos + len ≤ y.1 :=
              scanSeedsF_lb fuel (rest.drop (len - 1)) (pos + len) y
                (by rw [ht]; exact List.mem_cons_self y tl)
            omega
          · have := ih (rest.drop (len - 1)) (pos + len)
            rw [ht, List.map_cons] at this
            exact this

lemma renderSeeds_map_num (week : String) (body : List Char) :
    ∀ hs : List (Nat × Nat × List Char),
      (renderSeeds week body hs).map SeedT.num = hs.map (fun h => h.2.1) := by
  intro hs
  induction hs with
  | nil => rfl
  | cons h t ih =>
    simp only [renderSeeds, List.map_cons, ih]

/-- C5 amended: the extracted seed list is grouped by artifact, the artifacts
taken in reverse-lexicographic name order (reverse-chronological for the
week-stamped names the generator writes, limited to the eight most recent);
within one artifact the seeds appear in the order their header lines occur in
the document — the scan positions strictly increase and the emitted numbers
are exactly the header numbers in scan order.  Ascending numbers within an
artifact hold only when the document itself lists them ascending (the
counterexample shows the original claim fails otherwise). -/
theorem seed_extraction_order (v : Vault) :
    extract_seed_titles v
      = (seedFilesChosen v).flatMap (fun p => parseSeedFile p.1 p.2)
    ∧ List.Sorted nameGe (seedFilesChosen v)
    ∧ (∀ content : String,
      List.Chain' (· < ·) ((seedHeaders content).map (fun h => h.1)))
    ∧ (∀ name content : String, (parseSeedFile name content).map SeedT.num
      = (seedHeaders content).map (fun h => h.2.1)) := by
  refine ⟨?_, ?_, ?_, ?_⟩
  · unfold extract_seed_titles seedFilesChosen
    rw [foldl_skip_append]
    rfl
  · unfold seedFilesChosen
    have hs : List.Sorted nameGe
        (sortDesc (v.seedFiles.filter (fun p => strEndsWith p.1 ".md"))) :=
      List.sorted_insertionSort nameGe _
    exact List.Pairwise.sublist
      ((List.filter_sublist _).trans (List.take_sublist _ _)) hs
  · intro content
    exact scanSeedsF_chain _ _ 0
  · intro name content
    unfold parseSeedFile seedHeaders scanSeeds
    rw [renderSeeds_map_num]

/-- C5 counterexample: an artifact listing seed 2 before seed 1 is extracted
in document order — the numbers within the single artifact are [2, 1], not
ascending. -/
theorem seed_order_counterexample :
    (extract_seed_titles { emptyVault with seedFiles :=
        [("2026-W07-seeds.md",
          "---\nweek: 2026-W07\n---\n\nSeed #2: Beta\nstory two\nSeed #1: Alpha\nstory one")] }).map
        SeedT.num = [2, 1]
    ∧ ¬ List.Chain' (· ≤ ·)
        ((extract_seed_titles { emptyVault with seedFiles :=
          [("2026-W07-seeds.md",
            "---\nweek: 2026-W07\n---\n\nSeed #2: Beta\nstory two\nSeed #1: Alpha\nstory one")] }).map
          SeedT.num) := by
  have h : (extract_seed_titles { emptyVault with seedFiles :=
      [("2026-W07-seeds.md",
        "---\nweek: 2026-W07\n---\n\nSeed #2: Beta\nstory two\nSeed #1: Alpha\nstory one")] }).map
      SeedT.num = [2, 1] := by decide
  refine ⟨h, ?_⟩
  rw [h]
  simp [List.chain'_cons]

end DBrain
